import Mathlib

/-!
Verification of the pyts-tsparser deserializer and printer.

The deserializer (src/unnamed/part_000) interprets a tagged-union
SerializedNode value into either a plain runtime value or a constructed
AST node, dispatching factory names through a fixed name-to-operation
table. The printer (src/src/printer.ts) renders nodes to text and passes
the text through an auto-fixing lint stage.

External collaborators (the ts.factory construction functions, the
ts.isStatement predicate, the TypeScript pretty-printer and the ESLint
engine) are modelled abstractly: factory invocation is recorded as an
uninterpreted node constructor carrying the factory name and the
deserialized argument list, and the printer functions are parametrised
by the rendering and checking functions they delegate to.
-/

namespace Pyts

/-! ## JavaScript numbers and parseFloat

JS numbers are modelled symbolically: a finite value is an exact
rational, and the non-finite values NaN and the two infinities are
explicit constructors. The model of the JS builtin parseFloat follows
the ECMAScript StrDecimalLiteral grammar: skip leading whitespace, an
optional sign, then either the word Infinity or decimal digits with an
optional fraction and an optional exponent; the longest valid prefix is
taken and NaN is returned when there is none. -/

inductive JsNum where
  | finite (q : Rat)
  | posInf
  | negInf
  | nan
deriving DecidableEq, Repr

/-- Whitespace characters skipped by the JS parseFloat builtin. -/
def jsWhitespace (c : Char) : Bool :=
  c = ' ' || c = '\t' || c = '\n' || c = '\r' || c = '\x0b' || c = '\x0c'

/-- Value of a list of decimal digit characters read left to right. -/
def digitsVal (ds : List Char) : Nat :=
  ds.foldl (fun a c => 10 * a + (c.toNat - 48)) 0

/-- Does the second list start with the first one? -/
def startsWithChars : List Char → List Char → Bool
  | [], _ => true
  | _ :: _, [] => false
  | p :: ps, c :: cs => p = c && startsWithChars ps cs

/-- Value of an exponent suffix: optional sign then digits; an exponent
with no digits is ignored (contributes zero), matching the
longest-valid-prefix rule of the JS grammar. -/
def expVal (cs : List Char) : Int :=
  let signed : Bool × List Char :=
    match cs with
    | '+' :: r => (false, r)
    | '-' :: r => (true, r)
    | _ => (false, cs)
  let ds := signed.2.takeWhile Char.isDigit
  if ds.isEmpty then 0
  else if signed.1 then Int.neg (Int.ofNat (digitsVal ds))
  else Int.ofNat (digitsVal ds)

/-- Core of the parseFloat model, over a character list. -/
def parseFloatChars (cs : List Char) : JsNum :=
  let cs := cs.dropWhile jsWhitespace
  let signed : Bool × List Char :=
    match cs with
    | '+' :: r => (false, r)
    | '-' :: r => (true, r)
    | _ => (false, cs)
  let neg := signed.1
  let rest := signed.2
  if startsWithChars "Infinity".toList rest then
    if neg then .negInf else .posInf
  else
    let intDs := rest.takeWhile Char.isDigit
    let afterInt := rest.dropWhile Char.isDigit
    let fracPart : List Char × List Char :=
      match afterInt with
      | '.' :: r => (r.takeWhile Char.isDigit, r.dropWhile Char.isDigit)
      | _ => ([], afterInt)
    let fracDs := fracPart.1
    let afterFrac := fracPart.2
    if intDs.isEmpty && fracDs.isEmpty then .nan
    else
      let e : Int :=
        match afterFrac with
        | 'e' :: r => expVal r
        | 'E' :: r => expVal r
        | _ => 0
      let fl := fracDs.length
      let mant : Nat := digitsVal intDs * 10 ^ fl + digitsVal fracDs
      let numer : Nat := if 0 ≤ e then mant * 10 ^ e.toNat else mant
      let den : Nat := if 0 ≤ e then 10 ^ fl else 10 ^ fl * 10 ^ (-e).toNat
      .finite (mkRat (if neg then Int.neg (Int.ofNat numer) else Int.ofNat numer) den)

/-- Model of the JS parseFloat builtin used at part_000 line 227. -/
def parseFloat (s : String) : JsNum :=
  parseFloatChars s.toList

/-! ## The serialized value model (src/src/types.ts)

SerializedNode is a tagged union with discriminant field type and legal
tags literal, number, factory and undefined. The four type guards
isLiteral, isUndefined, isNumber and isFactory test the discriminant, so
the dispatch in deserialize is exactly a case split on the constructor. -/

inductive LitValue where
  | null
  | bool (b : Bool)
  | str (s : String)
deriving DecidableEq, Repr

inductive NumPayload where
  | ofNum (n : JsNum)
  | ofStr (s : String)
deriving DecidableEq, Repr

inductive SerializedNode where
  | literal (value : LitValue)
  | number (value : NumPayload)
  | factory (name : String) (args : List SerializedNode)
  | undef
deriving Repr

/-! ## Deserialized runtime values

The source type DeserializedValues is
string | number | boolean | ts.Node | null | undefined | list.
A ts.Node produced by a factory call is opaque to this repository, so it
is modelled as an uninterpreted record of the invocation: which factory
name was applied to which already-deserialized argument list. -/

inductive DValue where
  | str (s : String)
  | num (n : JsNum)
  | bool (b : Bool)
  | null
  | undef
  | node (name : String) (args : List DValue)
  | list (vs : List DValue)
  | protoInvoke (name : String) (args : List DValue)
deriving Repr

/-!
The protoInvoke constructor records an invocation that reaches neither
the table nor the unknown-name throw: factoryMap is a plain object
literal, so the JS bracket lookup at part_000 line 246 consults the
prototype chain, and for a name owned by Object.prototype the fetched
member is truthy and the guard at line 247 does not fire. The code then
deserializes the arguments and calls the inherited member. That call is
host behavior outside this repository (Object.prototype.toString called
this way returns the string describing an undefined receiver; the
looked-up value for the proto accessor name is not callable at all, so
calling it raises a host TypeError), so like the ts.factory calls it is
kept abstract as an uninterpreted record of name and argument list.
-/

/-- Keys of the factoryMap object literal (part_000 lines 28-206), in
source order. -/
def factoryNames : List String :=
  ["createToken",
   "createIdentifier", "createPrivateIdentifier", "createQualifiedName",
   "createStringLiteral", "createNumericLiteral", "createBigIntLiteral",
   "createRegularExpressionLiteral", "createNoSubstitutionTemplateLiteral",
   "createTrue", "createFalse", "createNull",
   "createArrayLiteralExpression", "createObjectLiteralExpression",
   "createPropertyAccessExpression", "createElementAccessExpression",
   "createCallExpression", "createNewExpression",
   "createTaggedTemplateExpression", "createTypeAssertion",
   "createParenthesizedExpression", "createFunctionExpression",
   "createArrowFunction", "createDeleteExpression", "createTypeOfExpression",
   "createVoidExpression", "createAwaitExpression",
   "createPrefixUnaryExpression", "createPostfixUnaryExpression",
   "createBinaryExpression", "createConditionalExpression",
   "createTemplateExpression", "createYieldExpression", "createSpreadElement",
   "createClassExpression", "createOmittedExpression", "createAsExpression",
   "createNonNullExpression", "createSatisfiesExpression",
   "createBlock", "createEmptyStatement", "createVariableStatement",
   "createExpressionStatement", "createIfStatement", "createDoStatement",
   "createWhileStatement", "createForStatement", "createForInStatement",
   "createForOfStatement", "createContinueStatement", "createBreakStatement",
   "createReturnStatement", "createWithStatement", "createSwitchStatement",
   "createLabeledStatement", "createThrowStatement", "createTryStatement",
   "createDebuggerStatement",
   "createVariableDeclaration", "createVariableDeclarationList",
   "createFunctionDeclaration", "createClassDeclaration",
   "createInterfaceDeclaration", "createTypeAliasDeclaration",
   "createEnumDeclaration", "createModuleDeclaration",
   "createImportDeclaration", "createImportClause", "createNamespaceImport",
   "createNamedImports", "createImportSpecifier", "createExportAssignment",
   "createExportDeclaration", "createNamedExports", "createExportSpecifier",
   "createTypeReferenceNode", "createTypeQueryNode", "createArrayTypeNode",
   "createTupleTypeNode", "createUnionTypeNode", "createIntersectionTypeNode",
   "createLiteralTypeNode", "createFunctionTypeNode", "createTypeLiteralNode",
   "createTypeOperatorNode", "createIndexedAccessTypeNode",
   "createPropertySignature",
   "createPropertyDeclaration", "createMethodDeclaration",
   "createConstructorDeclaration", "createGetAccessorDeclaration",
   "createSetAccessorDeclaration", "createIndexSignature",
   "createClassStaticBlockDeclaration",
   "createPropertyAssignment", "createShorthandPropertyAssignment",
   "createSpreadAssignment",
   "createObjectBindingPattern", "createArrayBindingPattern",
   "createBindingElement",
   "createParameterDeclaration", "createTypeParameterDeclaration",
   "createDecorator", "createHeritageClause",
   "createExpressionWithTypeArguments", "createCatchClause",
   "createCaseClause", "createDefaultClause", "createCaseBlock",
   "createTemplateHead", "createTemplateMiddle", "createTemplateTail",
   "createTemplateSpan",
   "createKeywordTypeNode"]

/-- Own property names of Object.prototype in the Node host: for these
names, which are not keys of factoryMap, the bracket lookup
factoryMap[name] still finds an inherited truthy member, so the
unknown-factory guard does not throw. Own keys shadow these, so the
list only matters off the table. -/
def objectProtoMembers : List String :=
  ["constructor", "hasOwnProperty", "isPrototypeOf", "propertyIsEnumerable",
   "toLocaleString", "toString", "valueOf", "__proto__",
   "__defineGetter__", "__defineSetter__", "__lookupGetter__",
   "__lookupSetter__"]

/-- A literal payload passed through unchanged (part_000 lines 217-219). -/
def litToValue : LitValue → DValue
  | .null => .null
  | .bool b => .bool b
  | .str s => .str s

mutual

/-- deserialize (part_000 lines 216-235): case split on the discriminant
via the four type guards. A throw is modelled as Except.error carrying
the message. The closed inductive has no ill-typed discriminant, so the
final unknown-node-type throw has no corresponding branch. The factory
case is the body of deserializeFactory (part_000 lines 240-253), inlined
here so that the mutual recursion is structural; the named function is
defined just below and is definitionally this branch. -/
def deserialize : SerializedNode → Except String DValue
  | .literal v => .ok (litToValue v)
  | .undef => .ok .undef
  | .number p =>
    .ok (.num (match p with
      | .ofStr s => parseFloat s
      | .ofNum n => n))
  | .factory name args =>
    if name = "__array__" then
      (deserializeList args).map .list
    else if factoryNames.contains name then
      (deserializeList args).map (fun ds => .node name ds)
    else if objectProtoMembers.contains name then
      (deserializeList args).map (fun ds => .protoInvoke name ds)
    else
      .error ("Unknown factory method: " ++ name)
termination_by structural n => n

/-- node.args.map(deserialize): left-to-right, the first thrown error
propagates, each argument fully deserialized before the next begins. -/
def deserializeList : List SerializedNode → Except String (List DValue)
  | [] => .ok []
  | a :: rest => do
    let v ← deserialize a
    let vs ← deserializeList rest
    .ok (v :: vs)
termination_by structural l => l

end

/-- deserializeFactory (part_000 lines 240-253): the array sentinel is
handled first; then factoryMap[node.name] is looked up. The lookup walks
the prototype chain: an own key of the table matches first, failing that
an Object.prototype member name still yields a truthy value, and only a
name found nowhere makes the truthiness guard throw, before any argument
is deserialized. On a truthy lookup the arguments are deserialized left
to right and the fetched value is invoked with the resulting list. -/
def deserializeFactory (name : String) (args : List SerializedNode) :
    Except String DValue :=
  if name = "__array__" then
    (deserializeList args).map .list
  else if factoryNames.contains name then
    (deserializeList args).map (fun ds => .node name ds)
  else if objectProtoMembers.contains name then
    (deserializeList args).map (fun ds => .protoInvoke name ds)
  else
    .error ("Unknown factory method: " ++ name)

/-- The factory case of deserialize is exactly deserializeFactory. -/
theorem deserialize_factory_def (name : String) (args : List SerializedNode) :
    deserialize (.factory name args) = deserializeFactory name args := by
  rw [deserialize, deserializeFactory]

/-- deserializeStatement (part_000 lines 258-264), parametrised by the
external ts.isStatement predicate and by the stringification of the
observed kind field used in the error message. -/
def deserializeStatement (isStmt : DValue → Bool) (kindOf : DValue → String)
    (node : SerializedNode) : Except String DValue :=
  match deserialize node with
  | .error e => .error e
  | .ok result =>
    if isStmt result then
      .ok result
    else
      .error ("Expected a statement, got: " ++ kindOf result)

/-- deserializeStatements (part_000 lines 269-273). -/
def deserializeStatements (isStmt : DValue → Bool) (kindOf : DValue → String)
    (nodes : List SerializedNode) : Except String (List DValue) :=
  nodes.mapM (deserializeStatement isStmt kindOf)

/-- deserializeExpression (part_000 lines 278-284), parametrised by the
external ts.isExpression predicate. -/
def deserializeExpression (isExpr : DValue → Bool) (kindOf : DValue → String)
    (node : SerializedNode) : Except String DValue :=
  match deserialize node with
  | .error e => .error e
  | .ok result =>
    if isExpr result then
      .ok result
    else
      .error ("Expected an expression, got: " ++ kindOf result)

/-- deserializeDeclaration (part_000 lines 289-294): deserializes and
casts; the cast has no runtime effect, so the body is exactly
deserialize. -/
def deserializeDeclaration (node : SerializedNode) : Except String DValue :=
  deserialize node

/-! ## Printer (src/src/printer.ts)

The printer delegates rendering to the TypeScript pretty-printer and
normalization to ESLint, both external. They are modelled as function
parameters: a render function for the raw-print stage and a check
function standing for linter.lintText on the linter built by
createLinter from the options; a lint result carries the optional fixed
output and the list of remaining diagnostic messages. Asynchronous
completion and awaiting add nothing observable to the value-level
behavior, so the functions are plain. -/

structure LintMessage where
  line : Nat
  column : Nat
  message : String
deriving DecidableEq, Repr

structure LintResult where
  output : Option String
  messages : List LintMessage
deriving DecidableEq, Repr

/-- One diagnostic rendered line colon column space message, the
diagnostics joined by newlines (printer.ts lines 90-92). -/
def formatMessages (ms : List LintMessage) : String :=
  String.intercalate "\n"
    (ms.map fun m => toString m.line ++ ":" ++ toString m.column ++ " " ++ m.message)

/-- lintText (printer.ts lines 75-96): if the first result carries fixed
output, return it; else if there are no messages (or no result at all),
return the input text unchanged; else throw an error embedding the text
and every formatted diagnostic. -/
def lintText (check : String → List LintResult) (text : String) :
    Except String String :=
  match check text with
  | [] => .ok text
  | r :: _ =>
    match r.output with
    | some out => .ok out
    | none =>
      if r.messages.isEmpty then .ok text
      else
        .error ("unable to lint printed node:\n\n" ++ text ++ "\n\nErrors:\n"
          ++ formatMessages r.messages)

/-- printNode (printer.ts lines 126-139): render the node; empty text
short-circuits to the empty string, otherwise normalize. -/
def printNode {α : Type} (render : α → String)
    (check : String → List LintResult) (node : α) : Except String String :=
  let text := render node
  if text = "" then .ok "" else lintText check text

/-- printNodes (printer.ts lines 144-162): render each node and join
with single newlines; empty joined text short-circuits. -/
def printNodes {α : Type} (render : α → String)
    (check : String → List LintResult) (nodes : List α) :
    Except String String :=
  let text := String.intercalate "\n" (nodes.map render)
  if text = "" then .ok "" else lintText check text

/-- printFile (printer.ts lines 167-187): wrap the statements in a
synthetic source file and print it (modelled by the renderFile
parameter); empty text short-circuits, otherwise normalize. -/
def printFile {α : Type} (renderFile : List α → String)
    (check : String → List LintResult) (statements : List α) :
    Except String String :=
  let text := renderFile statements
  if text = "" then .ok "" else lintText check text

/-- printNodeList (printer.ts lines 192-207): render the node list
(modelled by the renderList parameter) and normalize unconditionally;
there is no empty-text short-circuit in this function. -/
def printNodeList {α : Type} (renderList : List α → String)
    (check : String → List LintResult) (nodes : List α) :
    Except String String :=
  lintText check (renderList nodes)

/-! ## Claims about the deserializer -/

/-- C1: for a factory node whose name is not the array sentinel and is
present in the operation table, deserialize returns the matched
operation applied to the list obtained by deserializing every element of
args; the second conjunct exhibits the left-to-right, fully-evaluated
sequencing of the argument list. -/
theorem deserialize_factory_invokes_matched_operation
    (name : String) (args : List SerializedNode) (ds : List DValue)
    (hn : name ≠ "__array__") (hmem : factoryNames.contains name = true)
    (hargs : deserializeList args = .ok ds) :
    deserialize (.factory name args) = .ok (.node name ds) ∧
      ∀ (a : SerializedNode) (rest : List SerializedNode),
        deserializeList (a :: rest) =
          deserialize a >>= fun v =>
            deserializeList rest >>= fun vs => .ok (v :: vs) := by
  constructor
  · rw [deserialize, if_neg hn, if_pos hmem, hargs]
    rfl
  · intro a rest
    rw [deserializeList]

/-- Witness for C1 at a concrete factory node. -/
theorem deserialize_factory_invokes_matched_operation_witness :
    deserialize (.factory "createIdentifier" [.literal (.str "x")]) =
      .ok (.node "createIdentifier" [.str "x"]) :=
  (deserialize_factory_invokes_matched_operation "createIdentifier"
    [.literal (.str "x")] [.str "x"] (by decide) (by decide) rfl).1

/-- C2: the code violates the claim at the factory name toString, which
is absent from the operation table. The bracket lookup on the object
literal finds the inherited Object.prototype.toString, a truthy value,
so the unknown-factory guard does not throw; the arguments are
deserialized and the inherited member is invoked with them instead of
the required failure. The third conjunct shows a name found neither in
the table nor on the prototype still produces the error the claim and
the specification require, so the divergence is confined to the
prototype-owned names. -/
theorem deserialize_toString_hits_prototype :
    deserialize (.factory "toString" []) = .ok (.protoInvoke "toString" []) ∧
      deserialize (.factory "toString" []) ≠
        .error "Unknown factory method: toString" ∧
      deserialize (.factory "bogusThing" [.factory "alsoBogus" []]) =
        .error "Unknown factory method: bogusThing" :=
  ⟨rfl, fun h => Except.noConfusion h, rfl⟩

/-- C3: a factory node naming the array sentinel deserializes to the
ordered sequence of the recursive deserializations of its args; in
particular for args A, B the result is the two-element sequence of their
deserializations. -/
theorem deserialize_array_sentinel :
    (∀ (args : List SerializedNode) (ds : List DValue),
        deserializeList args = .ok ds →
        deserialize (.factory "__array__" args) = .ok (.list ds)) ∧
      ∀ (A B : SerializedNode) (a b : DValue),
        deserialize A = .ok a → deserialize B = .ok b →
        deserialize (.factory "__array__" [A, B]) = .ok (.list [a, b]) := by
  have base : ∀ (args : List SerializedNode) (ds : List DValue),
      deserializeList args = .ok ds →
      deserialize (.factory "__array__" args) = .ok (.list ds) := by
    intro args ds h
    rw [deserialize, if_pos rfl, h]
    rfl
  refine ⟨base, fun A B a b ha hb => base [A, B] [a, b] ?_⟩
  rw [deserializeList, ha]
  show deserializeList [B] >>= (fun vs => Except.ok (a :: vs)) = Except.ok [a, b]
  rw [deserializeList, hb]
  rfl

/-- Witness for C3 at a concrete two-element sentinel node. -/
theorem deserialize_array_sentinel_witness :
    deserialize (.factory "__array__" [.literal (.str "a"), .undef]) =
      .ok (.list [.str "a", .undef]) :=
  deserialize_array_sentinel.2 (.literal (.str "a")) .undef (.str "a") .undef
    rfl rfl

/-- C4: a number node with a native numeric payload deserializes to that
payload unchanged, and one with a string payload deserializes to the
standard decimal parse of the string; the string 3.14 parses to 157/50,
the number 42 stays 42, and a radix prefix is not honoured (0x10 parses
as 0). -/
theorem deserialize_number_payload :
    (∀ n : JsNum, deserialize (.number (.ofNum n)) = .ok (.num n)) ∧
      (∀ s : String,
        deserialize (.number (.ofStr s)) = .ok (.num (parseFloat s))) ∧
      parseFloat "3.14" = .finite (mkRat 157 50) ∧
      deserialize (.number (.ofNum (.finite (mkRat 42 1)))) =
        .ok (.num (.finite (mkRat 42 1))) ∧
      parseFloat "0x10" = .finite (mkRat 0 1) :=
  ⟨fun _ => rfl, fun _ => rfl, by decide, rfl, by decide⟩

/-- C5: a literal node deserializes to its payload unchanged, and a null
payload stays null rather than widening to undefined. -/
theorem deserialize_literal_identity :
    deserialize (.literal .null) = .ok .null ∧
      (∀ b : Bool, deserialize (.literal (.bool b)) = .ok (.bool b)) ∧
      (∀ s : String, deserialize (.literal (.str s)) = .ok (.str s)) ∧
      DValue.null ≠ DValue.undef :=
  ⟨rfl, fun _ => rfl, fun _ => rfl, fun h => DValue.noConfusion h⟩

/-- C6: deserializeStatement returns the deserialized result when the
statement predicate accepts it and otherwise fails with the expected a
statement error reporting the observed kind, for every choice of the
external predicate and kind stringification. -/
theorem deserializeStatement_narrowing
    (isStmt : DValue → Bool) (kindOf : DValue → String)
    (node : SerializedNode) (result : DValue)
    (h : deserialize node = .ok result) :
    (isStmt result = true →
        deserializeStatement isStmt kindOf node = .ok result) ∧
      (isStmt result = false →
        deserializeStatement isStmt kindOf node =
          .error ("Expected a statement, got: " ++ kindOf result)) := by
  constructor
  · intro hs
    rw [deserializeStatement, h]
    exact if_pos hs
  · intro hs
    rw [deserializeStatement, h]
    have hcond : ¬ (isStmt result = true) := by
      rw [hs]
      exact Bool.false_ne_true
    exact if_neg hcond

/-- Witness for C6: an expression-statement factory node passes a
predicate recognizing expression statements, while the bare identifier
it wraps is rejected with the error naming the observed kind. -/
theorem deserializeStatement_narrowing_witness :
    deserializeStatement
        (fun v => match v with
          | .node "createExpressionStatement" _ => true
          | _ => false)
        (fun _ => "80")
        (.factory "createExpressionStatement"
          [.factory "createIdentifier" [.literal (.str "x")]]) =
      .ok (.node "createExpressionStatement"
        [.node "createIdentifier" [.str "x"]]) ∧
      deserializeStatement
          (fun v => match v with
            | .node "createExpressionStatement" _ => true
            | _ => false)
          (fun _ => "80")
          (.factory "createIdentifier" [.literal (.str "x")]) =
        .error "Expected a statement, got: 80" :=
  ⟨(deserializeStatement_narrowing
      (fun v => match v with
        | .node "createExpressionStatement" _ => true
        | _ => false)
      (fun _ => "80")
      (.factory "createExpressionStatement"
        [.factory "createIdentifier" [.literal (.str "x")]])
      (.node "createExpressionStatement" [.node "createIdentifier" [.str "x"]])
      rfl).1 rfl,
   (deserializeStatement_narrowing
      (fun v => match v with
        | .node "createExpressionStatement" _ => true
        | _ => false)
      (fun _ => "80")
      (.factory "createIdentifier" [.literal (.str "x")])
      (.node "createIdentifier" [.str "x"]) rfl).2 rfl⟩

/-- C7: deserializeDeclaration is exactly the generic deserialize with
no runtime predicate check, so it succeeds whenever deserialize does and
never raises a type mismatch of its own. -/
theorem deserializeDeclaration_no_predicate_check (node : SerializedNode) :
    deserializeDeclaration node = deserialize node := rfl

/-! ## Claims about the printer -/

/-- C8: on non-empty printed text the normalization stage returns the
fixed output when the checker reports one, returns the raw text
unchanged when the checker reports no issues, and otherwise fails with
an error embedding the offending text and every diagnostic formatted as
line colon column space message. -/
theorem lintText_normalization_stage
    (check : String → List LintResult) (text : String)
    (r : LintResult) (rest : List LintResult)
    (htext : text ≠ "") (hres : check text = r :: rest) :
    (∀ out : String, r.output = some out → lintText check text = .ok out) ∧
      (r.output = none → r.messages = [] → lintText check text = .ok text) ∧
      (r.output = none → r.messages ≠ [] →
        lintText check text =
          .error ("unable to lint printed node:\n\n" ++ text
            ++ "\n\nErrors:\n" ++ formatMessages r.messages)) := by
  refine ⟨fun out ho => ?_, fun ho hm => ?_, fun ho hm => ?_⟩
  · simp [lintText, hres, ho]
  · simp [lintText, hres, ho, hm]
  · simp [lintText, hres, ho, List.isEmpty_iff, hm]

/-- Witness for C8 at a concrete checker that leaves one unfixed
diagnostic. -/
theorem lintText_normalization_stage_witness :
    lintText (fun _ => [⟨none, [⟨1, 2, "bad"⟩]⟩]) "x" =
      .error "unable to lint printed node:\n\nx\n\nErrors:\n1:2 bad" :=
  (lintText_normalization_stage (fun _ => [⟨none, [⟨1, 2, "bad"⟩]⟩]) "x"
    ⟨none, [⟨1, 2, "bad"⟩]⟩ [] (by decide) rfl).2.2 rfl (by simp)

/-- C9 counterexample: printNodeList does not short-circuit on input
whose raw rendering is empty; with a checker that leaves a diagnostic on
the empty text, printing an empty node list through printNodeList runs
normalization and fails instead of returning the empty string. -/
theorem printNodeList_runs_normalization_on_empty :
    printNodeList (fun (_ : List Unit) => "")
        (fun _ => [⟨none, [⟨1, 1, "x"⟩]⟩]) [] =
        .error "unable to lint printed node:\n\n\n\nErrors:\n1:1 x" ∧
      printNodeList (fun (_ : List Unit) => "")
          (fun _ => [⟨none, [⟨1, 1, "x"⟩]⟩]) [] ≠ .ok "" :=
  ⟨rfl, fun h => Except.noConfusion h⟩

/-- C9 amended: printNode, printNodes and printFile short-circuit empty
raw text to the empty string for every checker, hence without invoking
normalization, and the empty node list and the empty statement list with
empty rendering yield the empty string; printNodeList is the exception
and always invokes normalization. -/
theorem printer_empty_short_circuit {α : Type}
    (render : α → String) (renderFile : List α → String)
    (check : String → List LintResult) :
    (∀ node : α, render node = "" → printNode render check node = .ok "") ∧
      (∀ nodes : List α,
        String.intercalate "\n" (nodes.map render) = "" →
        printNodes render check nodes = .ok "") ∧
      printNodes render check [] = .ok "" ∧
      (∀ stmts : List α, renderFile stmts = "" →
        printFile renderFile check stmts = .ok "") := by
  refine ⟨fun node h => ?_, fun nodes h => ?_, ?_, fun stmts h => ?_⟩
  · rw [printNode]
    simp only [h, if_pos]
  · rw [printNodes]
    simp only [h, if_pos]
  · rw [printNodes]
    rfl
  · rw [printFile]
    simp only [h, if_pos]

/-- Witness for C9 amended: a checker that rejects everything is never
reached when the raw rendering is empty. -/
theorem printer_empty_short_circuit_witness :
    printNode (fun (_ : Unit) => "") (fun _ => [⟨none, [⟨1, 1, "x"⟩]⟩]) () =
        .ok "" ∧
      printFile (fun (_ : List Unit) => "")
          (fun _ => [⟨none, [⟨1, 1, "x"⟩]⟩]) [] =
        .ok "" :=
  ⟨(printer_empty_short_circuit (fun (_ : Unit) => "") (fun _ => "")
      (fun _ => [⟨none, [⟨1, 1, "x"⟩]⟩])).1 () rfl,
   (printer_empty_short_circuit (fun (_ : Unit) => "") (fun _ => "")
      (fun _ => [⟨none, [⟨1, 1, "x"⟩]⟩])).2.2.2 [] rfl⟩

/-- C10: a number node whose string payload is not parseable never makes
deserialize fail; the unparseable payload abc yields the NaN value and
the payload Infinity yields the positive infinite value. -/
theorem deserialize_unparseable_number_no_error :
    (∀ s : String,
        deserialize (.number (.ofStr s)) = .ok (.num (parseFloat s))) ∧
      parseFloat "abc" = .nan ∧
      parseFloat "Infinity" = .posInf ∧
      deserialize (.number (.ofStr "abc")) = .ok (.num .nan) ∧
      deserialize (.number (.ofStr "Infinity")) = .ok (.num .posInf) :=
  ⟨fun _ => rfl, by decide, by decide, rfl, rfl⟩

end Pyts
